import Mathlib

/-!
Verification development for the MoodyServer recommendation backend.

The recommendation-selection component (the Spotify catalog client) is shallowly
embedded below. Upstream HTTP responses are modelled by an `Upstream` record of
response functions returning `Except String _` (an `.error` value models any
thrown request failure, including authentication failure inside
`spotifyRequest`); the `try/catch` blocks of the source become `match`es on
those `Except` values, so every embedded operation is a total function.
Energy/valence numbers are embedded as rationals.
-/

namespace Moody

/-- A catalog track, from the `SpotifyTrack` interface: `id`, `name`,
`artists` (flattened to the artist names), `album.images` (flattened to the
image urls), `preview_url`.  `duration_ms` is omitted: no embedded operation
reads it. -/
structure Track where
  id : String
  name : String
  artists : List String
  albumImages : List String
  previewUrl : Option String
  deriving DecidableEq, Repr

/-- Audio features of a track, from the `SpotifyAudioFeatures` interface. -/
structure AudioFeatures where
  energy : ℚ
  valence : ℚ
  danceability : ℚ
  acousticness : ℚ
  instrumentalness : ℚ
  speechiness : ℚ
  deriving DecidableEq, Repr

/-- Parameters of one structured-recommendations request
(`/recommendations?...`), as built at lines 162-168 of the catalog client. -/
structure RecsParams where
  seed_genres : List String
  target_energy : ℚ
  target_valence : ℚ
  limit : Nat
  market : String
  deriving DecidableEq, Repr

/-- The upstream catalog: how it answers a structured-recommendations request
and a textual search request (query, limit).  An `.error` result stands for
any exception escaping `spotifyRequest` for that call. -/
structure Upstream where
  recs : RecsParams → Except String (List Track)
  search : String → Nat → Except String (List Track)

/-- `Math.max(0, Math.min(1, v / 10))`: the 1-10 → 0-1 rescale of
lines 127-128. -/
def scale (v : ℚ) : ℚ := max 0 (min 1 (v / 10))

/-- The fixed whitelist of verified genre seeds (lines 131-135). -/
def validSpotifyGenres : List String :=
  ["acoustic", "blues", "classical", "country", "dance", "electronic",
   "folk", "hip-hop", "indie", "jazz", "latin", "pop", "punk", "reggae",
   "rock", "soul", "world-music"]

/-- JS `s.toLowerCase()`, character by character (the embedded strings are
ASCII, where this agrees with JS). -/
def jsToLowerCase (s : String) : String :=
  ⟨s.data.map Char.toLower⟩

/-- `g.toLowerCase().replace(/[^a-z-]/g, '')` (line 141). -/
def normalizeHint (g : String) : String :=
  ((jsToLowerCase g).data.filter (fun c => ('a' ≤ c && c ≤ 'z') || c == '-')).asString

/-- Seed genres derived from the caller hints (lines 139-144): normalize each
hint, keep whitelist members, take at most 2; `[]` when no hints were given. -/
def hintSeeds (genres : List String) : List String :=
  if 0 < genres.length then
    ((genres.map normalizeHint).filter (fun g => validSpotifyGenres.contains g)).take 2
  else []

/-- Default seed genres from the mood quadrant thresholds (lines 147-155),
on the already-rescaled 0-1 values. -/
def quadrantSeeds (spotifyEnergy spotifyValence : ℚ) : List String :=
  if 7/10 ≤ spotifyValence ∧ 7/10 ≤ spotifyEnergy then ["pop", "dance"]
  else if spotifyValence ≤ 3/10 then ["blues", "folk"]
  else if spotifyEnergy ≤ 3/10 then ["acoustic", "classical"]
  else ["pop", "rock"]

/-- The seed-genre list right after quadrant defaulting (state of `seedGenres`
after line 156, before the final length-0 check of lines 158-160). -/
def seedGenresPre (spotifyEnergy spotifyValence : ℚ) (genres : List String) : List String :=
  let s := hintSeeds genres
  if s.length = 0 then quadrantSeeds spotifyEnergy spotifyValence else s

/-- The final seed-genre list (lines 137-160), including the last-resort
`["pop"]` branch of lines 158-160. -/
def seedGenres (spotifyEnergy spotifyValence : ℚ) (genres : List String) : List String :=
  let s := seedGenresPre spotifyEnergy spotifyValence genres
  if s.length = 0 then ["pop"] else s

/-- The structured-recommendations request issued by
`tryOfficialRecommendations` (lines 126-168). -/
def recsParams (energy valence : ℚ) (genres : List String) : RecsParams :=
  { seed_genres := seedGenres (scale energy) (scale valence) genres
    target_energy := scale energy
    target_valence := scale valence
    limit := 10
    market := "US" }

/-- `tryOfficialRecommendations` (lines 120-177): issue the structured query;
`data.tracks || []` on success, and the surrounding `try/catch` turns any
failure (authentication included) into `[]`. -/
def tryOfficialRecommendations (u : Upstream) (energy valence : ℚ)
    (genres : List String) : List Track :=
  match u.recs (recsParams energy valence genres) with
  | .ok tracks => tracks
  | .error _ => []

/-- `searchTracks` (lines 254-269): one textual search; its own `try/catch`
turns any failure into `[]`, so it never throws into its caller. -/
def searchTracks (u : Upstream) (query : String) (limit : Nat) : List Track :=
  match u.search query limit with
  | .ok tracks => tracks
  | .error _ => []

/-- The free-text search phrases of the fallback strategy (lines 185-209):
a quadrant-derived base list, then one lower-cased phrase per truthy
(non-empty) caller genre hint. -/
def searchTerms (energy valence : ℚ) (genres : List String) : List String :=
  let base :=
    if 7 ≤ valence ∧ 7 ≤ energy then ["happy upbeat", "dance party", "energetic"]
    else if 7 ≤ valence then ["happy", "feel good", "positive"]
    else if valence ≤ 3 ∧ energy ≤ 3 then ["sad slow", "melancholy", "emotional"]
    else if valence ≤ 3 then ["sad", "blues", "heartbreak"]
    else if 7 ≤ energy then ["energetic", "workout", "pump up"]
    else if energy ≤ 3 then ["calm", "relaxing", "chill"]
    else ["popular", "hits", "good vibes"]
  if 0 < genres.length then
    base ++ (genres.filter (fun g => g ≠ "")).map jsToLowerCase
  else base

/-- One issued search call: the query and the requested limit. -/
abbrev SearchCall := String × Nat

/-- Result of the fallback strategy together with the search calls it
issued upstream. -/
structure SearchTrace where
  calls : List SearchCall
  tracks : List Track
  deriving DecidableEq, Repr

/-- The accumulation loop of lines 215-224: for each remaining term, issue one
search (which swallows its own failures), append the tracks, and break once 10
tracks have accumulated. -/
def searchLoop (u : Upstream) (maxPer : Nat) :
    List String → List Track → List SearchCall → SearchTrace
  | [], acc, calls => ⟨calls, acc⟩
  | term :: rest, acc, calls =>
    let res := acc ++ searchTracks u term maxPer
    let calls' := calls ++ [(term, maxPer)]
    if 10 ≤ res.length then ⟨calls', res⟩
    else searchLoop u maxPer rest res calls'

/-- The duplicate removal of lines 227-229:
`allTracks.filter((track, index, arr) => arr.findIndex(t => t.id === track.id) === index)`. -/
def dedupById (ts : List Track) : List Track :=
  (ts.enum.filter (fun p => ts.findIdx (fun t => t.id == p.2.id) == p.1)).map Prod.snd

/-- `getSearchBasedRecommendations` (lines 179-236):
derive the search terms, cap each search at `Math.ceil(10 / terms.length)`
results, run the loop over the first 3 terms, then deduplicate by id and
truncate to 10. -/
def getSearchBasedRecommendations (u : Upstream) (energy valence : ℚ)
    (genres : List String) : SearchTrace :=
  let terms := searchTerms energy valence genres
  let maxTracksPerSearch := (10 + terms.length - 1) / terms.length
  let tr := searchLoop u maxTracksPerSearch (terms.take 3) [] []
  ⟨tr.calls, (dedupById tr.tracks).take 10⟩

/-- Result of the top-level selector together with whether the search fallback
ran and which search calls were issued. -/
structure RecTrace where
  tracks : List Track
  usedFallback : Bool
  searchCalls : List SearchCall
  deriving DecidableEq, Repr

/-- `getRecommendations` (lines 99-118), instrumented with the fallback
decision: use the official result when non-empty, otherwise the search
fallback.  Both strategies catch internally, so the outer `try/catch` of
lines 104-117 has nothing left to catch and the embedding is total. -/
def getRecommendationsTrace (u : Upstream) (energy valence : ℚ)
    (genres : List String) : RecTrace :=
  let recommendationTracks := tryOfficialRecommendations u energy valence genres
  if 0 < recommendationTracks.length then
    ⟨recommendationTracks, false, []⟩
  else
    let tr := getSearchBasedRecommendations u energy valence genres
    ⟨tr.tracks, true, tr.calls⟩

/-- The track list `getRecommendations` hands to its caller. -/
def getRecommendations (u : Upstream) (energy valence : ℚ)
    (genres : List String) : List Track :=
  (getRecommendationsTrace u energy valence genres).tracks

/-- An upstream on which every request fails, modelling a total outage
(authentication failure makes every `spotifyRequest` throw). -/
def failingUpstream : Upstream :=
  ⟨fun _ => .error "Unable to authenticate with Spotify",
   fun _ _ => .error "Unable to authenticate with Spotify"⟩

/-! ### Token caching (`getAccessToken`, lines 42-70)

The mutable fields `accessToken`/`tokenExpires` of the service become an
explicit `TokenState`; `Date.now()` becomes the `now` argument (milliseconds);
the outcome of the credential-exchange `fetch` becomes an `Except` argument.
The result carries the returned token (or the rethrown authentication error),
the state after the call, and how many token-exchange network calls were
performed. -/

/-- The token cache of the service: fields `accessToken` (line 34) and
`tokenExpires` (line 35). -/
structure TokenState where
  accessToken : Option String
  tokenExpires : Int
  deriving DecidableEq, Repr

/-- The state at construction: `accessToken = null`, `tokenExpires = 0`. -/
def initialTokenState : TokenState := ⟨none, 0⟩

/-- The decoded body of a successful token exchange
(`SpotifyAccessToken`, lines 1-5): `expires_in` is the declared
time-to-live in seconds. -/
structure TokenResponse where
  access_token : String
  token_type : String
  expires_in : Int
  deriving DecidableEq, Repr

/-- `getAccessToken` (lines 42-70).  The guard
`this.accessToken && Date.now() < this.tokenExpires` is a JS truthiness test,
so a `null` or empty-string cached token never counts as cached.  On a fetched
token the cache records `Date.now() + expires_in * 1000 - 60000` ("refresh 1
minute early"); on a failed exchange the state is unchanged and the rethrown
error surfaces. -/
def getAccessToken (fetchToken : Except String TokenResponse) (now : Int)
    (st : TokenState) : Except String String × TokenState × Nat :=
  if st.accessToken.getD "" ≠ "" ∧ now < st.tokenExpires then
    (.ok (st.accessToken.getD ""), st, 0)
  else
    match fetchToken with
    | .ok data =>
      (.ok data.access_token,
       ⟨some data.access_token, now + data.expires_in * 1000 - 60000⟩, 1)
    | .error _ => (.error "Unable to authenticate with Spotify", st, 1)

/-! ### Audio-feature lookup and the mood-entry persistence mapping -/

/-- `getAudioFeatures` (lines 238-252 of the catalog client): empty input
short-circuits to `[]` with no request; otherwise the batch request's
`audio_features || []` on success, and `[]` on any caught failure. -/
def getAudioFeatures (resp : Except String (List AudioFeatures))
    (trackIds : List String) : List AudioFeatures :=
  if trackIds.length = 0 then []
  else
    match resp with
    | .ok fs => fs
    | .error _ => []

/-- One persisted recommendation record, with the fields the
`POST /api/mood-entries` handler stores (route file lines 104-115). -/
structure StoredRecommendation where
  spotifyTrackId : String
  trackName : String
  artistName : String
  albumImageUrl : Option String
  previewUrl : Option String
  energy : ℚ
  valence : ℚ
  deriving DecidableEq, Repr

/-- JS `x || 0.5` on `audioFeatures[index]?.field`: `undefined` (absent entry)
and the falsy number `0` both become `0.5`. -/
def featureOrHalf : Option ℚ → ℚ
  | none => 1/2
  | some v => if v = 0 then 1/2 else v

/-- The record array built by
`spotifyTracks.map((track, index) => ({...}))` (route file lines 105-114):
energy and valence come from the audio features at the same index through the
falsy-default substitution. -/
def storedRecommendations (tracks : List Track)
    (audioFeatures : List AudioFeatures) : List StoredRecommendation :=
  tracks.enum.map (fun p =>
    { spotifyTrackId := p.2.id
      trackName := p.2.name
      artistName := p.2.artists.head?.getD "Unknown Artist"
      albumImageUrl := p.2.albumImages.head?
      previewUrl := p.2.previewUrl
      energy := featureOrHalf ((audioFeatures.get? p.1).map AudioFeatures.energy)
      valence := featureOrHalf ((audioFeatures.get? p.1).map AudioFeatures.valence) })

/-- The persistence step of the route (lines 99-115): fetch the audio features
for the recommended tracks' ids, then build the records. -/
def moodEntryStoredRecs (resp : Except String (List AudioFeatures))
    (tracks : List Track) : List StoredRecommendation :=
  storedRecommendations tracks (getAudioFeatures resp (tracks.map Track.id))

/-! ### The two alternate route-registration modules -/

/-- The argument triple `routes-new.ts` passes to `getRecommendations`
(lines 32-36): `(validatedData.valence, validatedData.energy,
moodAnalysis.suggestedGenres)` — valence first. -/
def routesNewArgs (energy valence : ℚ) (suggestedGenres : List String) :
    ℚ × ℚ × List String :=
  (valence, energy, suggestedGenres)

/-- The argument triple `routes-simple.ts` passes to `getRecommendations`
(lines 37-41): `(validatedData.energy, validatedData.valence,
moodAnalysis.suggestedGenres)` — energy first. -/
def routesSimpleArgs (energy valence : ℚ) (suggestedGenres : List String) :
    ℚ × ℚ × List String :=
  (energy, valence, suggestedGenres)

/-- The recommendation list obtained by the `routes-new.ts` handler for a
validated mood entry. -/
def routesNewGetRecommendations (u : Upstream) (energy valence : ℚ)
    (suggestedGenres : List String) : List Track :=
  getRecommendations u valence energy suggestedGenres

/-- The recommendation list obtained by the `routes-simple.ts` handler for a
validated mood entry. -/
def routesSimpleGetRecommendations (u : Upstream) (energy valence : ℚ)
    (suggestedGenres : List String) : List Track :=
  getRecommendations u energy valence suggestedGenres

/-! ### Concrete fixtures -/

/-- A sample track. -/
def tA : Track := ⟨"a", "Track A", [], [], none⟩

/-- A second sample track with a different id. -/
def tB : Track := ⟨"b", "Track B", [], [], none⟩

/-- An upstream whose structured-recommendations endpoint answers every
request with the same track twice. -/
def dupUpstream : Upstream := ⟨fun _ => .ok [tA, tA], fun _ _ => .ok []⟩

/-- Ten sample tracks, to trip the accumulation threshold of the loop. -/
def tenTracks : List Track := List.replicate 10 tA

/-- An upstream whose structured endpoint distinguishes the seed genres the
two route variants produce for the mood `energy 9, valence 2`. -/
def swapProbeUpstream : Upstream :=
  ⟨fun p => if p.seed_genres = ["blues", "folk"] then .ok [tA] else .ok [tB],
   fun _ _ => .ok []⟩

/-- A feature vector whose energy is genuinely 0 and whose valence is not. -/
def featZero : AudioFeatures := ⟨0, 1, 0, 0, 0, 0⟩

/-- The record the route stores for `tA` given `featZero`. -/
def storedA0 : StoredRecommendation :=
  ⟨"a", "Track A", "Unknown Artist", none, none, 1/2, 1⟩

/-- The record the route stores for `tA` when no features are available. -/
def storedADefault : StoredRecommendation :=
  ⟨"a", "Track A", "Unknown Artist", none, none, 1/2, 1/2⟩

/-! ### Helper lemmas -/

/-- The JS `filter`/`findIndex` idiom of lines 227-229 keeps at most one track
per id: the kept ids are pairwise distinct. -/
theorem dedupById_map_id_nodup (ts : List Track) :
    ((dedupById ts).map Track.id).Nodup := by
  unfold dedupById
  rw [List.map_map, List.Nodup, List.pairwise_map]
  have henum : (List.enum ts).Pairwise (fun a b => a.1 ≠ b.1) := by
    have h := List.nodup_range ts.length
    rw [← List.enum_map_fst ts] at h
    exact List.pairwise_map.mp h
  refine (henum.filter _).imp_of_mem ?_
  intro a b ha hb hne heq
  have hpa := (List.mem_filter.mp ha).2
  have hpb := (List.mem_filter.mp hb).2
  simp only [Function.comp] at heq
  apply hne
  have hfa : ts.findIdx (fun t => t.id == a.2.id) = a.1 := by simpa using hpa
  have hfb : ts.findIdx (fun t => t.id == b.2.id) = b.1 := by simpa using hpb
  rw [← hfa, ← hfb, heq]

/-- The fallback result is truncated to at most 10 tracks. -/
theorem getSearchBased_tracks_length (u : Upstream) (energy valence : ℚ)
    (genres : List String) :
    (getSearchBasedRecommendations u energy valence genres).tracks.length ≤ 10 := by
  unfold getSearchBasedRecommendations
  exact List.length_take_le ..

/-- The fallback result carries pairwise-distinct track ids. -/
theorem getSearchBased_tracks_nodup (u : Upstream) (energy valence : ℚ)
    (genres : List String) :
    ((getSearchBasedRecommendations u energy valence genres).tracks.map Track.id).Nodup := by
  unfold getSearchBasedRecommendations
  exact (((List.take_sublist _ _).map Track.id).nodup (dedupById_map_id_nodup _))

/-- The loop performs at most one search call per remaining term. -/
theorem searchLoop_calls_length (u : Upstream) (maxPer : Nat) (ts : List String)
    (acc : List Track) (cs : List SearchCall) :
    (searchLoop u maxPer ts acc cs).calls.length ≤ cs.length + ts.length := by
  induction ts generalizing acc cs with
  | nil => simp [searchLoop]
  | cons t rest ih =>
    unfold searchLoop
    dsimp only
    split
    · simp
    · calc (searchLoop u maxPer rest (acc ++ searchTracks u t maxPer)
              (cs ++ [(t, maxPer)])).calls.length
          ≤ (cs ++ [(t, maxPer)]).length + rest.length := ih ..
        _ ≤ cs.length + (t :: rest).length := by simp; omega

/-- Every call the loop issues requests exactly `maxPer` results. -/
theorem searchLoop_calls_limit (u : Upstream) (maxPer : Nat) (ts : List String)
    (acc : List Track) (cs : List SearchCall)
    (h : ∀ c ∈ cs, c.2 = maxPer) :
    ∀ c ∈ (searchLoop u maxPer ts acc cs).calls, c.2 = maxPer := by
  induction ts generalizing acc cs with
  | nil => simpa [searchLoop] using h
  | cons t rest ih =>
    unfold searchLoop
    dsimp only
    have h' : ∀ c ∈ cs ++ [(t, maxPer)], c.2 = maxPer := by
      intro c hc
      rcases List.mem_append.mp hc with hc | hc
      · exact h c hc
      · simp at hc; rw [hc]
    split
    · exact h'
    · exact ih _ _ h'

/-- When every search yields no tracks, the loop's accumulator never grows. -/
theorem searchLoop_tracks_of_empty (u : Upstream) (maxPer : Nat) (ts : List String)
    (acc : List Track) (cs : List SearchCall)
    (h : ∀ q l, searchTracks u q l = []) :
    (searchLoop u maxPer ts acc cs).tracks = acc := by
  induction ts generalizing acc cs with
  | nil => simp [searchLoop]
  | cons t rest ih =>
    unfold searchLoop
    dsimp only
    rw [h, List.append_nil]
    split
    · rfl
    · exact ih ..

/-- If every search yields no tracks, the fallback returns no tracks. -/
theorem getSearchBased_failing_tracks (energy valence : ℚ) (genres : List String) :
    (getSearchBasedRecommendations failingUpstream energy valence genres).tracks = [] := by
  unfold getSearchBasedRecommendations
  dsimp only
  rw [searchLoop_tracks_of_empty failingUpstream _ _ _ _ (fun _ _ => rfl)]
  rfl

/-! ### Claims -/

/-- C1 counterexample: the claim quantifies over every upstream response, but
`getRecommendations` returns the primary strategy's track list unmodified; an
upstream recommendations response that itself repeats a track id is handed to
the caller with the duplicate intact. -/
theorem getRecommendations_dup_passthrough :
    ¬ ((getRecommendations dupUpstream 9 9 []).length ≤ 10 ∧
       ((getRecommendations dupUpstream 9 9 []).map Track.id).Nodup) := by
  decide

/-- C1 (amended): the search-fallback result always has length at most 10 with
pairwise-distinct track ids; the primary result is returned as the upstream
provides it, so the full invariant holds whenever the primary response itself
has at most 10 tracks with distinct ids. -/
theorem getRecommendations_bounded_nodup :
    ∀ (u : Upstream) (energy valence : ℚ) (genres : List String),
      (tryOfficialRecommendations u energy valence genres).length ≤ 10 →
      ((tryOfficialRecommendations u energy valence genres).map Track.id).Nodup →
      (getRecommendations u energy valence genres).length ≤ 10 ∧
      ((getRecommendations u energy valence genres).map Track.id).Nodup := by
  intro u energy valence genres hlen hnodup
  unfold getRecommendations getRecommendationsTrace
  dsimp only
  split
  · exact ⟨hlen, hnodup⟩
  · exact ⟨getSearchBased_tracks_length .., getSearchBased_tracks_nodup ..⟩

/-- C1 witness: the amended theorem applied to the all-failure upstream. -/
theorem getRecommendations_bounded_nodup_witness :
    (tryOfficialRecommendations failingUpstream 5 5 []).length ≤ 10 ∧
    ((getRecommendations failingUpstream 5 5 []).length ≤ 10 ∧
     ((getRecommendations failingUpstream 5 5 []).map Track.id).Nodup) :=
  ⟨by decide, getRecommendations_bounded_nodup failingUpstream 5 5 [] (by decide) (by decide)⟩

/-- C2: the primary result is used whenever non-empty (no fallback, no search
calls); an empty primary result invokes the search fallback; if both yield
zero tracks the caller receives `[]`; and on the all-failure upstream
(authentication failure included) the caller still receives `[]`.  Every
embedded operation is total, so no exception reaches the caller. -/
theorem getRecommendations_fallback_policy :
    ∀ (u : Upstream) (energy valence : ℚ) (genres : List String),
      (tryOfficialRecommendations u energy valence genres ≠ [] →
        getRecommendationsTrace u energy valence genres =
          ⟨tryOfficialRecommendations u energy valence genres, false, []⟩) ∧
      (tryOfficialRecommendations u energy valence genres = [] →
        getRecommendationsTrace u energy valence genres =
          ⟨(getSearchBasedRecommendations u energy valence genres).tracks, true,
           (getSearchBasedRecommendations u energy valence genres).calls⟩) ∧
      (tryOfficialRecommendations u energy valence genres = [] →
        (getSearchBasedRecommendations u energy valence genres).tracks = [] →
        getRecommendations u energy valence genres = []) ∧
      getRecommendations failingUpstream energy valence genres = [] := by
  intro u energy valence genres
  refine ⟨?_, ?_, ?_, ?_⟩
  · intro h
    unfold getRecommendationsTrace
    dsimp only
    rw [if_pos (List.length_pos.mpr h)]
  · intro h
    unfold getRecommendationsTrace
    dsimp only
    rw [if_neg (by rw [h]; simp)]
  · intro h1 h2
    unfold getRecommendations getRecommendationsTrace
    dsimp only
    rw [if_neg (by rw [h1]; simp)]
    exact h2
  · unfold getRecommendations getRecommendationsTrace
    dsimp only
    rw [if_neg (by simp [tryOfficialRecommendations, failingUpstream])]
    exact getSearchBased_failing_tracks ..

/-- C2 witness: the policy applied to an upstream with a non-empty primary
result and to the all-failure upstream. -/
theorem getRecommendations_fallback_policy_witness :
    (getRecommendationsTrace dupUpstream 9 9 [] =
      ⟨tryOfficialRecommendations dupUpstream 9 9 [], false, []⟩) ∧
    getRecommendations failingUpstream 1 1 [] = [] :=
  ⟨(getRecommendations_fallback_policy dupUpstream 9 9 []).1 (by decide),
   (getRecommendations_fallback_policy failingUpstream 1 1 []).2.2.2⟩

/-- The quadrant defaulting always picks one of four fixed two-genre lists. -/
theorem quadrantSeeds_cases (sE sV : ℚ) :
    quadrantSeeds sE sV = ["pop", "dance"] ∨ quadrantSeeds sE sV = ["blues", "folk"] ∨
    quadrantSeeds sE sV = ["acoustic", "classical"] ∨ quadrantSeeds sE sV = ["pop", "rock"] := by
  unfold quadrantSeeds
  split
  · exact Or.inl rfl
  split
  · exact Or.inr (Or.inl rfl)
  split
  · exact Or.inr (Or.inr (Or.inl rfl))
  · exact Or.inr (Or.inr (Or.inr rfl))

/-- Hint-derived seeds are truncated to at most 2. -/
theorem hintSeeds_length_le (genres : List String) : (hintSeeds genres).length ≤ 2 := by
  unfold hintSeeds
  split
  · exact List.length_take_le ..
  · simp

/-- Hint-derived seeds all come from the whitelist. -/
theorem hintSeeds_subset (genres : List String) :
    ∀ s ∈ hintSeeds genres, s ∈ validSpotifyGenres := by
  intro s hs
  unfold hintSeeds at hs
  split at hs
  · exact List.mem_of_elem_eq_true (List.mem_filter.mp (List.mem_of_mem_take hs)).2
  · simp at hs

/-- The seed list after quadrant defaulting is never empty. -/
theorem seedGenresPre_ne_nil (sE sV : ℚ) (genres : List String) :
    seedGenresPre sE sV genres ≠ [] := by
  unfold seedGenresPre
  dsimp only
  split
  · rcases quadrantSeeds_cases sE sV with h | h | h | h <;> simp [h]
  · rename_i h
    intro hnil
    exact h (by rw [hnil]; rfl)

/-- The seed list after quadrant defaulting has at most 2 entries. -/
theorem seedGenresPre_length_le (sE sV : ℚ) (genres : List String) :
    (seedGenresPre sE sV genres).length ≤ 2 := by
  unfold seedGenresPre
  dsimp only
  split
  · rcases quadrantSeeds_cases sE sV with h | h | h | h <;> simp [h]
  · exact hintSeeds_length_le genres

/-- The final seed list never exceeds 2 entries. -/
theorem seedGenres_length_le (sE sV : ℚ) (genres : List String) :
    (seedGenres sE sV genres).length ≤ 2 := by
  unfold seedGenres
  dsimp only
  split
  · simp
  · exact seedGenresPre_length_le sE sV genres

/-- Every seed the derivation can emit is a whitelist genre. -/
theorem seedGenres_subset (sE sV : ℚ) (genres : List String) :
    ∀ s ∈ seedGenres sE sV genres, s ∈ validSpotifyGenres := by
  intro s hs
  unfold seedGenres at hs
  dsimp only at hs
  split at hs
  · simp at hs
    rw [hs]
    decide
  · unfold seedGenresPre at hs
    dsimp only at hs
    split at hs
    · rcases quadrantSeeds_cases sE sV with h | h | h | h <;>
        (rw [h] at hs; simp at hs; rcases hs with rfl | rfl <;> decide)
    · exact hintSeeds_subset genres s hs

/-- C3: the structured query never carries more than 2 seed genres, every seed
is a whitelist genre, the `{energy:9, valence:9}` no-hint scenario yields
`["pop","dance"]`, the `{energy:1, valence:1}` no-hint scenario shows the
low-valence tie-break (`["blues","folk"]`), and caller hints are lower-cased,
stripped to `[a-z-]`, whitelist-filtered and truncated to 2. -/
theorem seedGenres_derivation :
    ∀ (energy valence : ℚ) (genres : List String),
      (recsParams energy valence genres).seed_genres.length ≤ 2 ∧
      (∀ s ∈ (recsParams energy valence genres).seed_genres, s ∈ validSpotifyGenres) ∧
      (recsParams 9 9 []).seed_genres = ["pop", "dance"] ∧
      (recsParams 1 1 []).seed_genres = ["blues", "folk"] ∧
      (recsParams 9 9 ["Hip-Hop!!", "JAZZ", "metal", "Pop"]).seed_genres =
        ["hip-hop", "jazz"] := by
  intro energy valence genres
  refine ⟨seedGenres_length_le (scale energy) (scale valence) genres,
    seedGenres_subset (scale energy) (scale valence) genres, ?_, ?_, by decide⟩
  · norm_num [recsParams, seedGenres, seedGenresPre, hintSeeds, quadrantSeeds, scale,
      min_def, max_def]
  · norm_num [recsParams, seedGenres, seedGenresPre, hintSeeds, quadrantSeeds, scale,
      min_def, max_def]

/-- C3 witness: the derivation theorem applied at the 9/9 scenario. -/
theorem seedGenres_derivation_witness :
    "pop" ∈ validSpotifyGenres ∧ (recsParams 9 9 []).seed_genres.length ≤ 2 :=
  ⟨(seedGenres_derivation 9 9 []).2.1 "pop"
     (by rw [(seedGenres_derivation 9 9 []).2.2.1]; decide),
   (seedGenres_derivation 9 9 []).1⟩

/-- C9: for every (already rescaled) mood signal and every hint list, the seed
list is still non-empty after quadrant defaulting, the structured query
carries exactly that list (so the last-resort `["pop"]` branch of lines
158-160 is unreachable), and its length is 1 or 2. -/
theorem seedGenres_final_fallback_unreachable :
    ∀ (energy valence : ℚ) (genres : List String),
      seedGenresPre (scale energy) (scale valence) genres ≠ [] ∧
      (recsParams energy valence genres).seed_genres =
        seedGenresPre (scale energy) (scale valence) genres ∧
      1 ≤ (recsParams energy valence genres).seed_genres.length ∧
      (recsParams energy valence genres).seed_genres.length ≤ 2 := by
  intro energy valence genres
  have hne := seedGenresPre_ne_nil (scale energy) (scale valence) genres
  have heq : (recsParams energy valence genres).seed_genres =
      seedGenresPre (scale energy) (scale valence) genres := by
    show seedGenres _ _ _ = _
    unfold seedGenres
    dsimp only
    rw [if_neg (fun h => hne (List.length_eq_zero.mp h))]
  refine ⟨hne, heq, ?_, seedGenres_length_le ..⟩
  rw [heq]
  exact Nat.one_le_iff_ne_zero.mpr (fun h => hne (List.length_eq_zero.mp h))

/-- C9 witness: the unreachability theorem instantiated at a neutral mood. -/
theorem seedGenres_final_fallback_unreachable_witness :
    seedGenresPre (scale 5) (scale 5) [] ≠ [] ∧
    (recsParams 5 5 []).seed_genres = seedGenresPre (scale 5) (scale 5) [] :=
  ⟨(seedGenres_final_fallback_unreachable 5 5 []).1,
   (seedGenres_final_fallback_unreachable 5 5 []).2.1⟩

/-- C4 counterexample: the fallback appends only truthy (non-empty) genre
hints; the empty-string hint of the mood-neutral input `(5, 5, [""])` is
dropped, so the phrase list is not the quadrant phrases plus every lower-cased
hint. -/
theorem searchTerms_empty_hint_dropped :
    searchTerms 5 5 [""] ≠ searchTerms 5 5 [] ++ [""].map jsToLowerCase := by
  decide

/-- C4 (amended): the fallback phrases are the quadrant-derived phrases
followed by every non-empty caller hint, lower-cased and not filtered against
any whitelist (empty-string hints are skipped); the `{energy:2, valence:2}`
scenario yields `["sad slow","melancholy","emotional"]`. -/
theorem searchTerms_derivation :
    ∀ (energy valence : ℚ) (genres : List String),
      searchTerms energy valence genres =
        searchTerms energy valence [] ++
          (genres.filter (fun g => g ≠ "")).map jsToLowerCase ∧
      searchTerms 2 2 [] = ["sad slow", "melancholy", "emotional"] ∧
      searchTerms 9 9 ["Rock", ""] =
        ["happy upbeat", "dance party", "energetic", "rock"] := by
  intro energy valence genres
  refine ⟨?_, by decide, by decide⟩
  cases genres with
  | nil => simp [searchTerms]
  | cons a l => simp [searchTerms]

/-- C4 witness: the amended derivation instantiated at a concrete mood and
hint list. -/
theorem searchTerms_derivation_witness :
    searchTerms 5 5 ["Rock"] =
      searchTerms 5 5 [] ++ (["Rock"].filter (fun g => g ≠ "")).map jsToLowerCase :=
  (searchTerms_derivation 5 5 ["Rock"]).1

/-- C5: the fallback never issues more than 3 search calls; every call
requests exactly `⌈10 / phraseCount⌉` results (`phraseCount` counting all
derived phrases); the loop stops with the call on which 10 tracks have
accumulated; and an erroring search records its call and continues with the
remaining phrases. -/
theorem searchFallback_call_discipline :
    ∀ (u : Upstream) (energy valence : ℚ) (genres : List String),
      (getSearchBasedRecommendations u energy valence genres).calls.length ≤ 3 ∧
      (∀ c ∈ (getSearchBasedRecommendations u energy valence genres).calls,
        c.2 = (10 + (searchTerms energy valence genres).length - 1) /
              (searchTerms energy valence genres).length) ∧
      (∀ (maxPer : Nat) (term : String) (rest : List String) (acc : List Track)
         (calls : List SearchCall),
        10 ≤ (acc ++ searchTracks u term maxPer).length →
        searchLoop u maxPer (term :: rest) acc calls =
          ⟨calls ++ [(term, maxPer)], acc ++ searchTracks u term maxPer⟩) ∧
      (∀ (maxPer : Nat) (term : String) (rest : List String) (acc : List Track)
         (calls : List SearchCall) (err : String),
        u.search term maxPer = .error err → acc.length < 10 →
        searchLoop u maxPer (term :: rest) acc calls =
          searchLoop u maxPer rest acc (calls ++ [(term, maxPer)])) := by
  intro u energy valence genres
  refine ⟨?_, ?_, ?_, ?_⟩
  · unfold getSearchBasedRecommendations
    dsimp only
    calc (searchLoop u _ ((searchTerms energy valence genres).take 3) [] []).calls.length
        ≤ ([] : List SearchCall).length +
            ((searchTerms energy valence genres).take 3).length :=
          searchLoop_calls_length ..
      _ ≤ 3 := by simp [List.length_take_le]
  · unfold getSearchBasedRecommendations
    dsimp only
    exact searchLoop_calls_limit _ _ _ _ _ (by simp)
  · intro maxPer term rest acc calls h
    unfold searchLoop
    dsimp only
    rw [if_pos h]
  · intro maxPer term rest acc calls err herr hacc
    have hst : searchTracks u term maxPer = [] := by
      unfold searchTracks
      rw [herr]
    conv_lhs => rw [searchLoop]
    rw [hst, List.append_nil, if_neg (by omega)]

/-- C5 witness: the discipline theorem applied to the all-failure upstream and
to a loop state at the accumulation threshold. -/
theorem searchFallback_call_discipline_witness :
    (getSearchBasedRecommendations failingUpstream 2 2 []).calls.length ≤ 3 ∧
    ("sad slow", 4).2 =
      (10 + (searchTerms 2 2 []).length - 1) / (searchTerms 2 2 []).length ∧
    searchLoop failingUpstream 4 ["x", "y"] tenTracks [] =
      ⟨[("x", 4)], tenTracks ++ searchTracks failingUpstream "x" 4⟩ ∧
    searchLoop failingUpstream 4 ["x", "y"] [] [] =
      searchLoop failingUpstream 4 ["y"] [] [("x", 4)] :=
  ⟨(searchFallback_call_discipline failingUpstream 2 2 []).1,
   (searchFallback_call_discipline failingUpstream 2 2 []).2.1 ("sad slow", 4) (by decide),
   (searchFallback_call_discipline failingUpstream 2 2 []).2.2.1 4 "x" ["y"] tenTracks []
     (by decide),
   (searchFallback_call_discipline failingUpstream 2 2 []).2.2.2 4 "x" ["y"] [] []
     "Unable to authenticate with Spotify" rfl (by decide)⟩

/-- C7: for every mood value in [1,10], the structured query's target values
are the clamped rescale `clamp(v/10, 0, 1)`, which on this range is exactly
`v/10` and lies in [0,1]. -/
theorem recsParams_targets_clamped :
    ∀ (energy valence : ℚ) (genres : List String),
      1 ≤ energy → energy ≤ 10 → 1 ≤ valence → valence ≤ 10 →
      (recsParams energy valence genres).target_energy = max 0 (min 1 (energy / 10)) ∧
      (recsParams energy valence genres).target_valence = max 0 (min 1 (valence / 10)) ∧
      (recsParams energy valence genres).target_energy = energy / 10 ∧
      (recsParams energy valence genres).target_valence = valence / 10 ∧
      0 ≤ (recsParams energy valence genres).target_energy ∧
      (recsParams energy valence genres).target_energy ≤ 1 ∧
      0 ≤ (recsParams energy valence genres).target_valence ∧
      (recsParams energy valence genres).target_valence ≤ 1 := by
  intro energy valence genres h1 h2 h3 h4
  have he : max 0 (min 1 (energy / 10)) = energy / 10 := by
    rw [min_eq_right (by linarith), max_eq_right (by linarith)]
  have hv : max 0 (min 1 (valence / 10)) = valence / 10 := by
    rw [min_eq_right (by linarith), max_eq_right (by linarith)]
  refine ⟨rfl, rfl, he, hv, ?_, ?_, ?_, ?_⟩ <;>
    · show _ ≤ _
      first
        | (rw [show (recsParams energy valence genres).target_energy =
              energy / 10 from he]; linarith)
        | (rw [show (recsParams energy valence genres).target_valence =
              valence / 10 from hv]; linarith)

/-- C7 witness: the clamp theorem at the concrete mood (9, 2). -/
theorem recsParams_targets_clamped_witness :
    (recsParams 9 2 []).target_energy = (9 : ℚ) / 10 ∧
    (recsParams 9 2 []).target_valence = (2 : ℚ) / 10 :=
  ⟨(recsParams_targets_clamped 9 2 [] (by norm_num) (by norm_num) (by norm_num)
      (by norm_num)).2.2.1,
   (recsParams_targets_clamped 9 2 [] (by norm_num) (by norm_num) (by norm_num)
      (by norm_num)).2.2.2.1⟩

/-- C6: a cached (truthy) token before its recorded expiry is returned with no
network call; a fresh successful exchange caches the token with expiry
`now + declaredTtl·1000 − 60000`; and two calls within the validity window
perform exactly one exchange — the second call succeeds from the cache alone,
whatever its own exchange would have returned. -/
theorem getAccessToken_caching :
    ∀ (fetchToken fetchToken2 : Except String TokenResponse) (now now2 : Int)
      (st : TokenState) (tok : String) (data : TokenResponse),
      (st.accessToken = some tok → tok ≠ "" → now < st.tokenExpires →
        getAccessToken fetchToken now st = (.ok tok, st, 0)) ∧
      (st.accessToken.getD "" = "" ∨ st.tokenExpires ≤ now →
        getAccessToken (.ok data) now st =
          (.ok data.access_token,
           ⟨some data.access_token, now + data.expires_in * 1000 - 60000⟩, 1)) ∧
      (data.access_token ≠ "" → now2 < now + data.expires_in * 1000 - 60000 →
        (getAccessToken (.ok data) now initialTokenState).2.2 = 1 ∧
        getAccessToken fetchToken2 now2
            (getAccessToken (.ok data) now initialTokenState).2.1 =
          (.ok data.access_token,
           (getAccessToken (.ok data) now initialTokenState).2.1, 0)) := by
  intro fetchToken fetchToken2 now now2 st tok data
  have hhit : ∀ (f : Except String TokenResponse) (n : Int) (s : TokenState) (t : String),
      s.accessToken = some t → t ≠ "" → n < s.tokenExpires →
      getAccessToken f n s = (.ok t, s, 0) := by
    intro f n s t h1 h2 h3
    unfold getAccessToken
    rw [h1]
    rw [if_pos ⟨by simpa using h2, h3⟩]
    rfl
  have hmiss : st.accessToken.getD "" = "" ∨ st.tokenExpires ≤ now →
      getAccessToken (.ok data) now st =
        (.ok data.access_token,
         ⟨some data.access_token, now + data.expires_in * 1000 - 60000⟩, 1) := by
    intro h
    have hneg : ¬ (st.accessToken.getD "" ≠ "" ∧ now < st.tokenExpires) := by
      rintro ⟨hne, hlt⟩
      rcases h with h | h
      · exact hne h
      · omega
    unfold getAccessToken
    rw [if_neg hneg]
  have hfirst : getAccessToken (.ok data) now initialTokenState =
      (.ok data.access_token,
       ⟨some data.access_token, now + data.expires_in * 1000 - 60000⟩, 1) := by
    unfold getAccessToken initialTokenState
    rw [if_neg (by rintro ⟨hne, _⟩; exact hne rfl)]
  refine ⟨hhit fetchToken now st tok, hmiss, ?_⟩
  intro h1 h2
  rw [hfirst]
  exact ⟨rfl, hhit fetchToken2 now2 _ data.access_token rfl h1 h2⟩

/-- C6 witness: a 3600-second token fetched at time 0 is served from the cache
at time 1000 ms even though the upstream is then unreachable. -/
theorem getAccessToken_caching_witness :
    (getAccessToken (.ok ⟨"tok", "Bearer", 3600⟩) 0 initialTokenState).2.2 = 1 ∧
    getAccessToken (.error "network down") 1000
        (getAccessToken (.ok ⟨"tok", "Bearer", 3600⟩) 0 initialTokenState).2.1 =
      (.ok "tok",
       (getAccessToken (.ok ⟨"tok", "Bearer", 3600⟩) 0 initialTokenState).2.1, 0) :=
  (getAccessToken_caching (.ok ⟨"tok", "Bearer", 3600⟩) (.error "network down") 0 1000
    initialTokenState "" ⟨"tok", "Bearer", 3600⟩).2.2 (by decide) (by decide)

/-- C8: `routes-new.ts` passes `(valence, energy, genres)` to the catalog
client while `routes-simple.ts` passes `(energy, valence, genres)`; whenever
`energy ≠ valence` the two variants therefore call the selector with different
arguments, and on a concrete upstream their results differ. -/
theorem routes_argument_order :
    ∀ (energy valence : ℚ) (suggestedGenres : List String),
      routesNewArgs energy valence suggestedGenres =
        (valence, energy, suggestedGenres) ∧
      routesSimpleArgs energy valence suggestedGenres =
        (energy, valence, suggestedGenres) ∧
      (energy ≠ valence →
        routesNewArgs energy valence suggestedGenres ≠
          routesSimpleArgs energy valence suggestedGenres) ∧
      routesNewGetRecommendations swapProbeUpstream 9 2 [] ≠
        routesSimpleGetRecommendations swapProbeUpstream 9 2 [] := by
  intro energy valence suggestedGenres
  refine ⟨rfl, rfl, ?_, ?_⟩
  · intro hne heq
    exact hne (congrArg (fun t => t.1) heq).symm
  · have hnewSeeds : (recsParams 2 9 []).seed_genres = ["acoustic", "classical"] := by
      norm_num [recsParams, seedGenres, seedGenresPre, hintSeeds, quadrantSeeds, scale,
        min_def, max_def]
    have hsimpleSeeds : (recsParams 9 2 []).seed_genres = ["blues", "folk"] := by
      norm_num [recsParams, seedGenres, seedGenresPre, hintSeeds, quadrantSeeds, scale,
        min_def, max_def]
    have hnew : routesNewGetRecommendations swapProbeUpstream 9 2 [] = [tB] := by
      simp only [routesNewGetRecommendations, getRecommendations, getRecommendationsTrace,
        tryOfficialRecommendations, swapProbeUpstream, hnewSeeds]
      decide
    have hsimple : routesSimpleGetRecommendations swapProbeUpstream 9 2 [] = [tA] := by
      simp only [routesSimpleGetRecommendations, getRecommendations, getRecommendationsTrace,
        tryOfficialRecommendations, swapProbeUpstream, hsimpleSeeds]
      decide
    rw [hnew, hsimple]
    decide

/-- C8 witness: the mismatch theorem at the concrete mood (9, 2). -/
theorem routes_argument_order_witness :
    routesNewArgs 9 2 [] ≠ routesSimpleArgs 9 2 [] ∧
    routesNewGetRecommendations swapProbeUpstream 9 2 [] ≠
      routesSimpleGetRecommendations swapProbeUpstream 9 2 [] :=
  ⟨(routes_argument_order 9 2 []).2.2.1 (by norm_num),
   (routes_argument_order 9 2 []).2.2.2⟩

/-- On a failed batch request, `getAudioFeatures` yields no features. -/
theorem getAudioFeatures_error (err : String) (trackIds : List String) :
    getAudioFeatures (.error err) trackIds = [] := by
  unfold getAudioFeatures
  split
  · rfl
  · rfl

/-- With no audio features at all, every stored record gets the 0.5 default
in both dimensions. -/
theorem storedRecommendations_nil_features (tracks : List Track) :
    ∀ r ∈ storedRecommendations tracks [], r.energy = 1/2 ∧ r.valence = 1/2 := by
  intro r hr
  unfold storedRecommendations at hr
  rcases List.mem_map.mp hr with ⟨p, _, rfl⟩
  exact ⟨by simp [featureOrHalf], by simp [featureOrHalf]⟩

/-- C10: the persisted energy/valence of a recommended track equals the
fetched audio-feature value only when that value is present and non-zero; a
genuine feature value of exactly 0 is stored as 0.5; and when the batch
audio-features call fails entirely, every stored record gets energy 0.5 and
valence 0.5. -/
theorem storedRecommendations_falsy_default :
    ∀ (tracks : List Track) (audioFeatures : List AudioFeatures) (i : Nat)
      (f : AudioFeatures) (r : StoredRecommendation),
      (audioFeatures.get? i = some f →
        (storedRecommendations tracks audioFeatures).get? i = some r →
        ((f.energy ≠ 0 → r.energy = f.energy) ∧ (f.energy = 0 → r.energy = 1/2) ∧
         (f.valence ≠ 0 → r.valence = f.valence) ∧ (f.valence = 0 → r.valence = 1/2))) ∧
      (∀ err : String, ∀ r' ∈ moodEntryStoredRecs (.error err) tracks,
        r'.energy = 1/2 ∧ r'.valence = 1/2) := by
  intro tracks audioFeatures i f r
  constructor
  · intro hf hr
    unfold storedRecommendations at hr
    rw [List.get?_eq_getElem?, List.getElem?_map, List.getElem?_enum] at hr
    rcases htr : tracks[i]? with _ | t
    · rw [htr] at hr
      simp at hr
    · rw [htr] at hr
      simp only [Option.map_some'] at hr
      have hrdef := (Option.some.injEq _ _).mp hr
      rw [← hrdef]
      dsimp only
      rw [hf]
      simp only [Option.map_some']
      refine ⟨?_, ?_, ?_, ?_⟩ <;> intro h <;> simp [featureOrHalf, h]
  · intro err r' hr'
    rw [moodEntryStoredRecs, getAudioFeatures_error] at hr'
    exact storedRecommendations_nil_features tracks r' hr'

/-- C10 witness: a zero energy is stored as 0.5, a non-zero valence is kept,
and a failed batch call defaults both dimensions. -/
theorem storedRecommendations_falsy_default_witness :
    storedA0.energy = 1/2 ∧ storedA0.valence = featZero.valence ∧
    (storedADefault.energy = 1/2 ∧ storedADefault.valence = 1/2) :=
  ⟨((storedRecommendations_falsy_default [tA] [featZero] 0 featZero storedA0).1
      rfl rfl).2.1 rfl,
   ((storedRecommendations_falsy_default [tA] [featZero] 0 featZero storedA0).1
      rfl rfl).2.2.1 (by decide),
   (storedRecommendations_falsy_default [tA] [] 0 featZero storedA0).2 "boom"
     storedADefault (by rw [show moodEntryStoredRecs (Except.error "boom") [tA] = [storedADefault] from rfl]; exact List.mem_singleton.mpr rfl)⟩

end Moody
